import Mathlib

/-!
# Verification of the porepy tutorial corpus

Shallow embedding of the two tutorial notebooks of the repository:
the forward-mode AD tutorial (`Ad_array`) and the fracture-network
meshing tutorial (fracture intersection finding, boundary imposition,
meshing, grid-bucket assembly and fracture splitting).

The library functions themselves (`porepy.ad.forward_mode`,
`porepy.fracs`, `porepy.meshing`) are not part of the source tree;
only the notebooks that call them and their recorded outputs are.
Definitions for those functions are therefore modelled from the
specification, as indicated in their doc comments; the recorded
notebook outputs are embedded verbatim as ground truth.

All geometry is carried out in exact arithmetic over the field
ℚ(√3): every coordinate appearing in the tutorials (including the
vertices of the elliptic fracture, whose construction only uses
sines and cosines of multiples of π/6) is of the form a + b·√3
with a, b rational.  Rationals are represented as unnormalized
integer fractions with positive denominators, so that every
computation reduces inside the kernel.
-/

/-- An exact rational number num/den.  All operations keep `den`
positive, so the sign of the number is the sign of `num`, and reduce
the fraction by the gcd of its parts, so numbers stay small.  A plain
pair of integers is used (rather than the library rationals) so that
every computation reduces inside the kernel. -/
structure Frac where
  num : Int
  den : Int
deriving Repr

namespace Frac

/-- Normalized construction: divides out the gcd; the given
denominator must be positive. -/
def mk2 (n d : Int) : Frac :=
  let g : Int := Int.gcd n d
  if g == 0 then ⟨0, 1⟩ else ⟨n / g, d / g⟩

def ofInt (n : Int) : Frac := ⟨n, 1⟩

instance : Zero Frac := ⟨⟨0, 1⟩⟩

instance : One Frac := ⟨⟨1, 1⟩⟩

instance (n : ℕ) : OfNat Frac n := ⟨⟨n, 1⟩⟩

instance : Add Frac := ⟨fun x y => mk2 (x.num * y.den + y.num * x.den) (x.den * y.den)⟩

instance : Neg Frac := ⟨fun x => ⟨-x.num, x.den⟩⟩

instance : Sub Frac := ⟨fun x y => x + -y⟩

instance : Mul Frac := ⟨fun x y => mk2 (x.num * y.num) (x.den * y.den)⟩

/-- Reciprocal; the sign moves to the numerator position so the
denominator stays positive.  The reciprocal of 0 is degenerate and is
never consumed (every division below is guarded by a zero test). -/
def inv (x : Frac) : Frac :=
  if 0 ≤ x.num then ⟨x.den, x.num⟩ else ⟨-x.den, -x.num⟩

instance : Div Frac := ⟨fun x y => x * y.inv⟩

def isZero (x : Frac) : Bool := x.num == 0

/-- 0 ≤ x, relying on the positive-denominator invariant. -/
def nonneg (x : Frac) : Bool := decide (0 ≤ x.num)

def le (x y : Frac) : Bool := (y - x).nonneg

end Frac

/-- An element a + b·√3 of the real quadratic field ℚ(√3),
represented exactly by the pair of rational coordinates. -/
structure Qs3 where
  a : Frac
  b : Frac
deriving Repr

namespace Qs3

def ofFrac (q : Frac) : Qs3 := ⟨q, 0⟩

instance : Zero Qs3 := ⟨⟨0, 0⟩⟩

instance : One Qs3 := ⟨⟨1, 0⟩⟩

instance (n : ℕ) : OfNat Qs3 n := ⟨⟨OfNat.ofNat n, 0⟩⟩

instance : Add Qs3 := ⟨fun x y => ⟨x.a + y.a, x.b + y.b⟩⟩

instance : Neg Qs3 := ⟨fun x => ⟨-x.a, -x.b⟩⟩

instance : Sub Qs3 := ⟨fun x y => ⟨x.a - y.a, x.b - y.b⟩⟩

instance : Mul Qs3 :=
  ⟨fun x y => ⟨x.a * y.a + 3 * (x.b * y.b), x.a * y.b + x.b * y.a⟩⟩

/-- Field inverse in ℚ(√3): (a + b√3)⁻¹ = (a - b√3)/(a² - 3b²).
The denominator vanishes only at 0 (√3 being irrational), and every
division below is guarded by a zero test. -/
def inv (x : Qs3) : Qs3 :=
  let d := x.a * x.a - 3 * (x.b * x.b)
  ⟨x.a / d, -x.b / d⟩

instance : Div Qs3 := ⟨fun x y => x * y.inv⟩

def isZero (x : Qs3) : Bool := x.a.isZero && x.b.isZero

/-- Decision procedure for 0 ≤ a + b·√3, by comparing a² with 3b²
in the mixed-sign cases. -/
def nonneg (x : Qs3) : Bool :=
  if x.a.nonneg then
    if x.b.nonneg then true else Frac.le (3 * (x.b * x.b)) (x.a * x.a)
  else
    if x.b.nonneg then Frac.le (x.a * x.a) (3 * (x.b * x.b)) else false

/-- x ≤ y in the order of ℚ(√3) inherited from ℝ. -/
def le (x y : Qs3) : Bool := (y - x).nonneg

def min (x y : Qs3) : Qs3 := if x.le y then x else y

def max (x y : Qs3) : Qs3 := if x.le y then y else x

end Qs3

/-- A point (or vector) of 3-space with exact ℚ(√3) coordinates. -/
structure Vec3 where
  x : Qs3
  y : Qs3
  z : Qs3
deriving Repr

namespace Vec3

instance : Add Vec3 := ⟨fun u v => ⟨u.x + v.x, u.y + v.y, u.z + v.z⟩⟩

instance : Sub Vec3 := ⟨fun u v => ⟨u.x - v.x, u.y - v.y, u.z - v.z⟩⟩

instance : Zero Vec3 := ⟨⟨0, 0, 0⟩⟩

def smul (c : Qs3) (v : Vec3) : Vec3 := ⟨c * v.x, c * v.y, c * v.z⟩

def dot (u v : Vec3) : Qs3 := u.x * v.x + u.y * v.y + u.z * v.z

def cross (u v : Vec3) : Vec3 :=
  ⟨u.y * v.z - u.z * v.y, u.z * v.x - u.x * v.z, u.x * v.y - u.y * v.x⟩

def isZero (v : Vec3) : Bool := v.x.isZero && v.y.isZero && v.z.isZero

/-- A point with integer coordinates. -/
def ofInt (px py pz : Int) : Vec3 :=
  ⟨Qs3.ofFrac (Frac.ofInt px), Qs3.ofFrac (Frac.ofInt py), Qs3.ofFrac (Frac.ofInt pz)⟩

end Vec3

/-!
## Convex planar polygons and their intersections

Modelled from the spec, §4.2: `find_intersections` computes, for every
unordered pair of fractures, "the polygon–polygon intersection using
plane-plane intersection (yielding a line) then clip that line to both
polygons". Parallel planes yield no line and hence no intersection.
All arithmetic is exact, so the tolerance of the spec plays no role.
-/

/-- A fracture polygon: an ordered list of coplanar vertices forming a
convex polygon, as in the tutorial's 3×n vertex arrays. -/
abbrev Polygon := List Vec3

/-- Normal vector of the polygon's plane, from its first three vertices. -/
def Polygon.normal (p : Polygon) : Vec3 :=
  match p with
  | v0 :: v1 :: v2 :: _ => Vec3.cross (v1 - v0) (v2 - v0)
  | _ => 0

/-- The list of directed boundary edges of a polygon, in cyclic order. -/
def Polygon.edges (p : Polygon) : List (Vec3 × Vec3) :=
  match p with
  | [] => []
  | v :: _ => p.zip (p.drop 1 ++ [v])

/-- A line in 3-space, parametrised as p0 + t·dir. -/
structure Line where
  p0 : Vec3
  dir : Vec3
deriving Repr

/-- The intersection line of the planes of two polygons, or `none` when
the planes are parallel.  The base point solves n₁·p = c₁, n₂·p = c₂
in the span of the two normals. -/
def planeLine (P Q : Polygon) : Option Line :=
  let n1 := P.normal
  let n2 := Q.normal
  let d := Vec3.cross n1 n2
  if d.isZero then none
  else
    let c1 := Vec3.dot n1 (P.headD 0)
    let c2 := Vec3.dot n2 (Q.headD 0)
    let n11 := Vec3.dot n1 n1
    let n22 := Vec3.dot n2 n2
    let n12 := Vec3.dot n1 n2
    let den := n11 * n22 - n12 * n12
    let k1 := (c1 * n22 - c2 * n12) / den
    let k2 := (c2 * n11 - c1 * n12) / den
    some ⟨Vec3.smul k1 n1 + Vec3.smul k2 n2, d⟩

/-- A parameter interval on a line being clipped against half-planes:
optional lower and upper bounds plus an emptiness flag. -/
structure Clip where
  lo : Option Qs3
  hi : Option Qs3
  empty : Bool
deriving Repr

def Clip.init : Clip := ⟨none, none, false⟩

/-- Impose the linear constraint `const + t·coeff ≥ 0` on the interval. -/
def Clip.addConstraint (cl : Clip) (coeff const : Qs3) : Clip :=
  if coeff.isZero then
    if const.nonneg then cl else { cl with empty := true }
  else if coeff.nonneg then
    let t := -(const / coeff)
    { cl with lo := some (match cl.lo with | none => t | some l => Qs3.max l t) }
  else
    let t := -(const / coeff)
    { cl with hi := some (match cl.hi with | none => t | some h => Qs3.min h t) }

def Clip.nonempty (cl : Clip) : Bool :=
  !cl.empty &&
    (match cl.lo, cl.hi with
     | some l, some h => l.le h
     | _, _ => true)

/-- Clip the line to the inside of a convex polygon lying in the same
plane: each boundary edge (a,b) contributes the half-plane constraint
((b-a) × (q-a))·n ≥ 0, which is linear in the line parameter. -/
def clipToPolygon (L : Line) (P : Polygon) (cl : Clip) : Clip :=
  let n := P.normal
  P.edges.foldl
    (fun acc e =>
      let a := e.1
      let b := e.2
      let const := Vec3.dot (Vec3.cross (b - a) (L.p0 - a)) n
      let coeff := Vec3.dot (Vec3.cross (b - a) L.dir) n
      acc.addConstraint coeff const)
    cl

/-- Whether two convex planar polygons intersect: the plane-plane line
exists and its clippings against both polygons leave a common
(nonempty, possibly degenerate) parameter interval. -/
def polyIntersect (P Q : Polygon) : Bool :=
  match planeLine P Q with
  | none => false
  | some L => (clipToPolygon L Q (clipToPolygon L P Clip.init)).nonempty

/-- All index pairs i < j < n, in lexicographic order. -/
def indexPairs (n : ℕ) : List (ℕ × ℕ) :=
  (List.range n).foldr
    (fun i acc => ((List.range n).filterMap fun j => if i < j then some (i, j) else none) ++ acc)
    []

/-- Modelled from the spec: `find_intersections` produces the set of
pairwise fracture intersections, one per unordered pair of fractures
whose polygons meet, pairs sorted canonically by index. -/
def computeIntersections (fs : List Polygon) : List (ℕ × ℕ) :=
  (indexPairs fs.length).filter fun ij => polyIntersect (fs.getD ij.1 []) (fs.getD ij.2 [])

/-- The number of fractures involved in at least one intersection, as
reported by `intersection_info`'s "N fractures intersect". -/
def numIntersectingFractures (fs : List Polygon) : ℕ :=
  ((List.range fs.length).filter fun i =>
    (computeIntersections fs).any fun ij => ij.1 == i || ij.2 == i).length

/-- Modelled from the spec: the summary printed by
`network.intersection_info()`, "In total N fractures intersect in M
intersections" — the number of fractures involved in at least one
intersection, paired with the number of pairwise intersections. -/
def intersection_info (fs : List Polygon) : ℕ × ℕ :=
  let isects := computeIntersections fs
  (((List.range fs.length).filter fun i =>
      isects.any fun ij => ij.1 == i || ij.2 == i).length,
   isects.length)

/-!
## The tutorial's concrete fractures and domain

`f_1` and `f_2` are given in the notebook as 3×4 vertex arrays.  `f_3`
is an `EllipticFracture`; modelled from the spec, §6: ellipse
parameters `{center, major_axis, minor_axis, major_axis_angle,
strike_angle, dip_angle, num_points}`, with the notebook's narrative:
the polygon approximating the ellipse is laid out in the xy-plane,
the major axis is rotated about the center (about the z-axis) by
`major_axis_angle`, and the dip rotation by `dip_angle` about the
strike direction (the horizontal unit vector at `strike_angle`) is
carried out after the major-axis rotation.  With twelve points and
angles that are multiples of π/6, every sine and cosine involved lies
in ℚ(√3), so the vertices are exact.
-/

/-- 1/2 as an element of ℚ(√3). -/
def qhalf : Qs3 := ⟨⟨1, 2⟩, 0⟩

/-- √3/2 as an element of ℚ(√3). -/
def qs32 : Qs3 := ⟨0, ⟨1, 2⟩⟩

/-- cos(2πk/12) for k = 0,…,11. -/
def cos12 : List Qs3 :=
  [1, qs32, qhalf, 0, -qhalf, -qs32, -1, -qs32, -qhalf, 0, qhalf, qs32]

/-- sin(2πk/12) for k = 0,…,11. -/
def sin12 : List Qs3 :=
  [0, qhalf, qs32, 1, qs32, qhalf, 0, -qhalf, -qs32, -1, -qs32, -qhalf]

/-- Rotation of v about the z-axis by the angle with cosine c, sine s. -/
def rotZ (c s : Qs3) (v : Vec3) : Vec3 :=
  ⟨c * v.x - s * v.y, s * v.x + c * v.y, v.z⟩

/-- Rodrigues rotation of v about the unit axis u by the angle with
cosine c and sine s. -/
def rotAxis (u : Vec3) (c s : Qs3) (v : Vec3) : Vec3 :=
  Vec3.smul c v + Vec3.smul s (Vec3.cross u v) + Vec3.smul ((1 - c) * Vec3.dot u v) u

/-- The first planar fracture of the tutorial,
`f_1 = [[0, 1, 2, 0], [0, 0, 1, 1], [0, 0, 1, 1]]`. -/
def f1 : Polygon :=
  [Vec3.ofInt 0 0 0, Vec3.ofInt 1 0 0, Vec3.ofInt 2 1 1, Vec3.ofInt 0 1 1]

/-- The second planar fracture of the tutorial,
`f_2 = [[0.5, 0.5, 0.5, 0.5], [-1, 2, 2, -1], [-1, -1, 2, 2]]`. -/
def f2 : Polygon :=
  [⟨qhalf, -1, -1⟩, ⟨qhalf, 2, -1⟩, ⟨qhalf, 2, 2⟩, ⟨qhalf, -1, 2⟩]

/-- Modelled from the spec: the `EllipticFracture` polygon with center
(0.1, 0.3, 0.2), major/minor axes 1.5/0.5, major-axis angle π/6,
strike angle -π/3, dip angle -π/3, approximated by 12 points. -/
def f3 : Polygon :=
  let center : Vec3 := ⟨⟨⟨1, 10⟩, 0⟩, ⟨⟨3, 10⟩, 0⟩, ⟨⟨1, 5⟩, 0⟩⟩
  let cosMaj := qs32
  let sinMaj := qhalf
  let strikeVec : Vec3 := ⟨qhalf, -qs32, 0⟩
  let cosDip := qhalf
  let sinDip := -qs32
  (List.range 12).map fun k =>
    let p : Vec3 := ⟨Qs3.ofFrac ⟨3, 2⟩ * cos12.getD k 0, Qs3.ofFrac ⟨1, 2⟩ * sin12.getD k 0, 0⟩
    center + rotAxis strikeVec cosDip sinDip (rotZ cosMaj sinMaj p)

/-- The axis-aligned bounding box `{xmin, xmax, ymin, ymax, zmin, zmax}`
of the tutorial's domain dictionary. -/
structure Box where
  xmin : Int
  xmax : Int
  ymin : Int
  ymax : Int
  zmin : Int
  zmax : Int

/-- The tutorial's domain:
`{xmin: -2, xmax: 3, ymin: -2, ymax: 3, zmin: -3, zmax: 3}`. -/
def tutorialDomain : Box := ⟨-2, 3, -2, 3, -3, 3⟩

/-- The six faces of the bounding box as convex quadrilaterals.
Modelled from the spec: `impose_external_boundary` turns the domain
box faces into additional fracture-like planes. -/
def Box.faces (d : Box) : List Polygon :=
  [ [Vec3.ofInt d.xmin d.ymin d.zmin, Vec3.ofInt d.xmin d.ymax d.zmin,
     Vec3.ofInt d.xmin d.ymax d.zmax, Vec3.ofInt d.xmin d.ymin d.zmax],
    [Vec3.ofInt d.xmax d.ymin d.zmin, Vec3.ofInt d.xmax d.ymax d.zmin,
     Vec3.ofInt d.xmax d.ymax d.zmax, Vec3.ofInt d.xmax d.ymin d.zmax],
    [Vec3.ofInt d.xmin d.ymin d.zmin, Vec3.ofInt d.xmax d.ymin d.zmin,
     Vec3.ofInt d.xmax d.ymin d.zmax, Vec3.ofInt d.xmin d.ymin d.zmax],
    [Vec3.ofInt d.xmin d.ymax d.zmin, Vec3.ofInt d.xmax d.ymax d.zmin,
     Vec3.ofInt d.xmax d.ymax d.zmax, Vec3.ofInt d.xmin d.ymax d.zmax],
    [Vec3.ofInt d.xmin d.ymin d.zmin, Vec3.ofInt d.xmax d.ymin d.zmin,
     Vec3.ofInt d.xmax d.ymax d.zmin, Vec3.ofInt d.xmin d.ymax d.zmin],
    [Vec3.ofInt d.xmin d.ymin d.zmax, Vec3.ofInt d.xmax d.ymin d.zmax,
     Vec3.ofInt d.xmax d.ymax d.zmax, Vec3.ofInt d.xmin d.ymax d.zmax] ]

/-- The fracture list of scenario 2 after `impose_external_boundary`:
the three fractures followed by the six box faces, nine fracture-like
planes in all. -/
def scenario2Fractures : List Polygon := [f1, f2, f3] ++ tutorialDomain.faces

/-!
## The fracture network

Modelled from the spec, §3: a `FractureNetwork` owns the fractures
(after boundary imposition this includes the box faces) and, once
`find_intersections` has run, the set of pairwise intersections.
-/

/-- The state of a `FractureNetwork`: its fracture polygons and its
intersection set, `none` before `find_intersections` has run. -/
structure FractureNetwork where
  fractures : List Polygon
  intersections : Option (List (ℕ × ℕ))
deriving Repr

/-- Modelled from the spec (§3 lifecycle, and the "Use existing
intersections" line of the recorded meshing output):
`find_intersections` computes the pairwise intersection set from the
fractures and stores it on the network; when the set is already
present it is reused unchanged. -/
def FractureNetwork.find_intersections (fn : FractureNetwork) : FractureNetwork :=
  match fn.intersections with
  | some _ => fn
  | none => { fn with intersections := some (computeIntersections fn.fractures) }

/-- Modelled from the spec, §6 diagnostics: `intersection_info()`
reports "In total N fractures intersect in M intersections": the
number of fractures involved in at least one intersection, paired
with the number of pairwise intersections found. -/
def FractureNetwork.intersection_info (fn : FractureNetwork) : ℕ × ℕ :=
  let isects := fn.intersections.getD []
  (((List.range fn.fractures.length).filter fun i =>
      isects.any fun ij => ij.1 == i || ij.2 == i).length,
   isects.length)

/-- The network of end-to-end scenario 1: the two planar fractures,
before any boundary imposition or intersection finding. -/
def scenario1Network : FractureNetwork := ⟨[f1, f2], none⟩

/-- The network of end-to-end scenario 2 after
`impose_external_boundary`: three fractures plus six box faces,
intersections not yet computed. -/
def scenario2Network : FractureNetwork := ⟨scenario2Fractures, none⟩

/-!
## Grids, the mesher adapter, and the grid bucket

Modelled from the spec, §3 (Grid, GridBucket) and §4.3/§4.4.
-/

/-- A single-dimension grid: its topological dimension, its cell
count, and its faces and nodes, each flagged `true` when it lies on an
embedded fracture surface and is therefore subject to duplication by
`split_fractures`.  Modelled from the spec, §3 (Grid). -/
structure Grid where
  dim : ℕ
  num_cells : ℕ
  faceOnFracture : List Bool
  nodeOnFracture : List Bool
deriving DecidableEq, Repr

instance : Inhabited Grid := ⟨⟨0, 0, [], []⟩⟩

def Grid.num_faces (g : Grid) : ℕ := g.faceOnFracture.length

def Grid.num_nodes (g : Grid) : ℕ := g.nodeOnFracture.length

/-- The grid-bucket container: the collection of grids of the mixed-
dimensional mesh (the coupling edges play no role in the claims about
counts, which is all the bucket is used for here). -/
structure GridBucket where
  grids : List Grid
deriving DecidableEq, Repr

/-- Modelled from the spec, §4.4: `_assemble_in_bucket` collects the
per-dimension grids into a `GridBucket` graph. -/
def assemble_in_bucket (gs : List Grid) : GridBucket := ⟨gs⟩

/-- Modelled from the spec, §4.3: the mesher adapter
(`tetrahedral_grid`) returns one grid for the 3-d volumetric domain,
one 2-d grid per fracture polygon and one 1-d grid per
fracture–fracture intersection line.  Cell, face and node counts of
each grid depend on the external mesher and are left abstract (empty
here); only the dimensions and the number of grids are fixed by the
decomposition. -/
def tetrahedral_grid (fs : List Polygon) : List Grid :=
  [⟨3, 0, [], []⟩] ++ fs.map (fun _ => ⟨2, 0, [], []⟩)
    ++ (computeIntersections fs).map (fun _ => ⟨1, 0, [], []⟩)

/-- The number of 3-d, 2-d and 1-d grids in a collection. -/
def gridCountsByDim (gs : List Grid) : ℕ × ℕ × ℕ :=
  (gs.countP (fun g => g.dim == 3), gs.countP (fun g => g.dim == 2),
   gs.countP (fun g => g.dim == 1))

/-- Modelled from the spec, §4.4: the effect of `split_fractures` on a
single grid — every face and node lying on an embedded fracture
surface is duplicated (so the surface becomes two coincident but
topologically distinct copies, one per side); cells are untouched. -/
def Grid.splitGrid (g : Grid) : Grid :=
  { g with
    faceOnFracture := g.faceOnFracture ++ g.faceOnFracture.filter id,
    nodeOnFracture := g.nodeOnFracture ++ g.nodeOnFracture.filter id }

/-- Modelled from the spec, §4.4: `split_fractures(gb)` applies the
face/node duplication to every grid of the bucket. -/
def split_fractures (gb : GridBucket) : GridBucket :=
  ⟨gb.grids.map Grid.splitGrid⟩

/-!
## Recorded `report_grid` output of the notebook

The meshing notebook prints cell/face/node counts of the
highest-dimensional grid immediately before and immediately after
`pp.fracs.split_grid.split_fractures(gb)`; both recorded blocks are
embedded verbatim.
-/

/-- The recorded `report_grid` output before splitting:
"Number of cells: 7378, Number of faces: 17118, Number of nodes: 2565". -/
def reportBeforeSplitting : ℕ × ℕ × ℕ := (7378, 17118, 2565)

/-- The recorded `report_grid` output after splitting:
"Number of cells: 7378, Number of faces: 17118, Number of nodes: 2565". -/
def reportAfterSplitting : ℕ × ℕ × ℕ := (7378, 17118, 2565)

/-!
## Face tagging of 1-d grids
-/

/-- The two tags `_tag_faces` can put on a face of a 1-d grid. -/
inductive FaceTag where
  | intersection
  | tip
deriving DecidableEq, Repr

/-- A 1-d grid as seen by `_tag_faces`: the list of its face points. -/
structure OneDGrid where
  facePts : List Vec3
deriving Repr

/-- Modelled from the spec, §4.4: `_tag_faces` classifies a face of a
1-d grid as lying on a fracture-intersection line when it coincides
with an intersection point of the network, and as a fracture tip (a
free end not bounded by another fracture) otherwise.  The
classification is total. -/
def tagFace (isectPts : List Vec3) (facePt : Vec3) : FaceTag :=
  if isectPts.any (fun q => (facePt - q).isZero) then .intersection else .tip

/-- Modelled from the spec, §4.4: `_tag_faces` on a 1-d grid tags each
of its faces, one tag per face. -/
def tag_faces (g : OneDGrid) (isectPts : List Vec3) : List FaceTag :=
  g.facePts.map (tagFace isectPts)

/-!
## The forward-mode AD module

Modelled from the spec, §1: "a forward-mode automatic-differentiation
(AD) array type used to build and differentiate nonlinear residuals
… operator-overload-style dual-number/Jacobian propagation", with the
notebook (`porepy.ad.forward_mode.Ad_array`, `porepy.ad.functions`)
as the guide for which operations exist.
-/

/-- `Ad_array`: a value together with the Jacobian of the expression
that produced it.  Scalar case: both entries are scalars. -/
structure Ad_array (α : Type) where
  val : α
  jac : α
deriving DecidableEq, Repr

/-- Modelled from the spec: `Ad_array.__pow__` — the power rule:
value is raised to the n-th power, the Jacobian is multiplied by
n·valⁿ⁻¹ (dual-number propagation). -/
def Ad_array.pow {α : Type} [CommRing α] (x : Ad_array α) (n : ℕ) : Ad_array α :=
  ⟨x.val ^ n, (n : α) * x.val ^ (n - 1) * x.jac⟩

/-- Modelled from the spec: `Ad_array.__add__` with a scalar constant —
the value shifts, the Jacobian is unchanged. -/
def Ad_array.addConst {α : Type} [CommRing α] (x : Ad_array α) (c : α) : Ad_array α :=
  ⟨x.val + c, x.jac⟩

namespace af

/-- Modelled from the spec: `af.exp` of `porepy.ad.functions` — the
chain rule for the exponential:  value exp(y.val), Jacobian
exp(y.val)·y.jac. -/
noncomputable def exp (y : Ad_array ℝ) : Ad_array ℝ :=
  ⟨Real.exp y.val, Real.exp y.val * y.jac⟩

end af

/-- The vector `Ad_array` of the notebook: a dense value vector with a
dense Jacobian matrix (the notebook's sparse matrices hold the same
entries). -/
structure Ad_vec where
  val : List ℤ
  jac : List (List ℤ)
deriving DecidableEq, Repr

/-- Dot product of two integer vectors. -/
def dotZ (u v : List ℤ) : ℤ := (u.zip v).foldl (fun s p => s + p.1 * p.2) 0

/-- Dense matrix-vector product. -/
def matVec (A : List (List ℤ)) (x : List ℤ) : List ℤ := A.map (fun r => dotZ r x)

/-- Dense matrix-matrix product. -/
def matMul (A B : List (List ℤ)) : List (List ℤ) :=
  A.map fun r =>
    (List.range (B.headD []).length).map fun j => dotZ r (B.map fun br => br.getD j 0)

/-- Modelled from the spec: `Ad_array.__rmul__` with a constant matrix
A — value A·val, Jacobian A·jac (linear maps pass through). -/
def Ad_vec.matApply (A : List (List ℤ)) (x : Ad_vec) : Ad_vec :=
  ⟨matVec A x.val, matMul A x.jac⟩

/-- Modelled from the spec: componentwise `x**2` — each value entry is
squared and the corresponding Jacobian row is scaled by 2·valᵢ (the
power rule applied componentwise, i.e. the Jacobian becomes
2·diag(val)·jac). -/
def Ad_vec.sq (x : Ad_vec) : Ad_vec :=
  ⟨x.val.map (fun v => v * v),
   (x.val.zip x.jac).map (fun p => p.2.map (fun e => 2 * p.1 * e))⟩

/-- Modelled from the spec: `Ad_array.__add__` of two AD vectors —
values and Jacobians add componentwise. -/
def Ad_vec.add (x y : Ad_vec) : Ad_vec :=
  ⟨(x.val.zip y.val).map (fun p => p.1 + p.2),
   (x.jac.zip y.jac).map (fun p => (p.1.zip p.2).map fun q => q.1 + q.2)⟩

/-- The notebook's vector variable: value [1,2,3], identity Jacobian. -/
def xVec : Ad_vec := ⟨[1, 2, 3], [[1, 0, 0], [0, 1, 0], [0, 0, 1]]⟩

/-- The notebook's sparse matrix `A = [[0,2,3],[4,0,6],[7,8,0]]`. -/
def Amat : List (List ℤ) := [[0, 2, 3], [4, 0, 6], [7, 8, 0]]

/-- A concrete one-grid bucket used as a witness input: a 3-d grid
with 5 cells, one fracture face out of two, one fracture node. -/
def sampleBucket : GridBucket := ⟨[⟨3, 5, [true, false], [true]⟩]⟩

/-- A concrete 1-d grid used as a witness input: two face points, the
first of which coincides with an intersection point. -/
def sampleOneDGrid : OneDGrid := ⟨[Vec3.ofInt 0 0 0, Vec3.ofInt 5 0 0]⟩

/-- The intersection points paired with `sampleOneDGrid`. -/
def sampleIsectPts : List Vec3 := [Vec3.ofInt 0 0 0]

/-!
## Theorems for the claims
-/

/-!
### The 36 pairwise intersection tests of scenario 2

One lemma per unordered pair of the nine fracture-like planes, each
decided by the exact clipping computation; kept as separate
declarations so each is checked independently.
-/
set_option maxRecDepth 400000 in
/-- Pairwise test of fractures 0 and 1 of scenario 2. -/
theorem s2pair_0_1 :
    polyIntersect (scenario2Fractures.getD 0 []) (scenario2Fractures.getD 1 []) = true := by
  decide
set_option maxRecDepth 400000 in
/-- Pairwise test of fractures 0 and 2 of scenario 2. -/
theorem s2pair_0_2 :
    polyIntersect (scenario2Fractures.getD 0 []) (scenario2Fractures.getD 2 []) = true := by
  decide
set_option maxRecDepth 400000 in
/-- Pairwise test of fractures 0 and 3 of scenario 2. -/
theorem s2pair_0_3 :
    polyIntersect (scenario2Fractures.getD 0 []) (scenario2Fractures.getD 3 []) = false := by
  decide
set_option maxRecDepth 400000 in
/-- Pairwise test of fractures 0 and 4 of scenario 2. -/
theorem s2pair_0_4 :
    polyIntersect (scenario2Fractures.getD 0 []) (scenario2Fractures.getD 4 []) = false := by
  decide
set_option maxRecDepth 400000 in
/-- Pairwise test of fractures 0 and 5 of scenario 2. -/
theorem s2pair_0_5 :
    polyIntersect (scenario2Fractures.getD 0 []) (scenario2Fractures.getD 5 []) = false := by
  decide
set_option maxRecDepth 400000 in
/-- Pairwise test of fractures 0 and 6 of scenario 2. -/
theorem s2pair_0_6 :
    polyIntersect (scenario2Fractures.getD 0 []) (scenario2Fractures.getD 6 []) = false := by
  decide
set_option maxRecDepth 400000 in
/-- Pairwise test of fractures 0 and 7 of scenario 2. -/
theorem s2pair_0_7 :
    polyIntersect (scenario2Fractures.getD 0 []) (scenario2Fractures.getD 7 []) = false := by
  decide
set_option maxRecDepth 400000 in
/-- Pairwise test of fractures 0 and 8 of scenario 2. -/
theorem s2pair_0_8 :
    polyIntersect (scenario2Fractures.getD 0 []) (scenario2Fractures.getD 8 []) = false := by
  decide
set_option maxRecDepth 400000 in
/-- Pairwise test of fractures 1 and 2 of scenario 2. -/
theorem s2pair_1_2 :
    polyIntersect (scenario2Fractures.getD 1 []) (scenario2Fractures.getD 2 []) = true := by
  decide
set_option maxRecDepth 400000 in
/-- Pairwise test of fractures 1 and 3 of scenario 2. -/
theorem s2pair_1_3 :
    polyIntersect (scenario2Fractures.getD 1 []) (scenario2Fractures.getD 3 []) = false := by
  decide
set_option maxRecDepth 400000 in
/-- Pairwise test of fractures 1 and 4 of scenario 2. -/
theorem s2pair_1_4 :
    polyIntersect (scenario2Fractures.getD 1 []) (scenario2Fractures.getD 4 []) = false := by
  decide
set_option maxRecDepth 400000 in
/-- Pairwise test of fractures 1 and 5 of scenario 2. -/
theorem s2pair_1_5 :
    polyIntersect (scenario2Fractures.getD 1 []) (scenario2Fractures.getD 5 []) = false := by
  decide
set_option maxRecDepth 400000 in
/-- Pairwise test of fractures 1 and 6 of scenario 2. -/
theorem s2pair_1_6 :
    polyIntersect (scenario2Fractures.getD 1 []) (scenario2Fractures.getD 6 []) = false := by
  decide
set_option maxRecDepth 400000 in
/-- Pairwise test of fractures 1 and 7 of scenario 2. -/
theorem s2pair_1_7 :
    polyIntersect (scenario2Fractures.getD 1 []) (scenario2Fractures.getD 7 []) = false := by
  decide
set_option maxRecDepth 400000 in
/-- Pairwise test of fractures 1 and 8 of scenario 2. -/
theorem s2pair_1_8 :
    polyIntersect (scenario2Fractures.getD 1 []) (scenario2Fractures.getD 8 []) = false := by
  decide
set_option maxRecDepth 400000 in
/-- Pairwise test of fractures 2 and 3 of scenario 2. -/
theorem s2pair_2_3 :
    polyIntersect (scenario2Fractures.getD 2 []) (scenario2Fractures.getD 3 []) = false := by
  decide
set_option maxRecDepth 400000 in
/-- Pairwise test of fractures 2 and 4 of scenario 2. -/
theorem s2pair_2_4 :
    polyIntersect (scenario2Fractures.getD 2 []) (scenario2Fractures.getD 4 []) = false := by
  decide
set_option maxRecDepth 400000 in
/-- Pairwise test of fractures 2 and 5 of scenario 2. -/
theorem s2pair_2_5 :
    polyIntersect (scenario2Fractures.getD 2 []) (scenario2Fractures.getD 5 []) = false := by
  decide
set_option maxRecDepth 400000 in
/-- Pairwise test of fractures 2 and 6 of scenario 2. -/
theorem s2pair_2_6 :
    polyIntersect (scenario2Fractures.getD 2 []) (scenario2Fractures.getD 6 []) = false := by
  decide
set_option maxRecDepth 400000 in
/-- Pairwise test of fractures 2 and 7 of scenario 2. -/
theorem s2pair_2_7 :
    polyIntersect (scenario2Fractures.getD 2 []) (scenario2Fractures.getD 7 []) = false := by
  decide
set_option maxRecDepth 400000 in
/-- Pairwise test of fractures 2 and 8 of scenario 2. -/
theorem s2pair_2_8 :
    polyIntersect (scenario2Fractures.getD 2 []) (scenario2Fractures.getD 8 []) = false := by
  decide
set_option maxRecDepth 400000 in
/-- Pairwise test of fractures 3 and 4 of scenario 2. -/
theorem s2pair_3_4 :
    polyIntersect (scenario2Fractures.getD 3 []) (scenario2Fractures.getD 4 []) = false := by
  decide
set_option maxRecDepth 400000 in
/-- Pairwise test of fractures 3 and 5 of scenario 2. -/
theorem s2pair_3_5 :
    polyIntersect (scenario2Fractures.getD 3 []) (scenario2Fractures.getD 5 []) = true := by
  decide
set_option maxRecDepth 400000 in
/-- Pairwise test of fractures 3 and 6 of scenario 2. -/
theorem s2pair_3_6 :
    polyIntersect (scenario2Fractures.getD 3 []) (scenario2Fractures.getD 6 []) = true := by
  decide
set_option maxRecDepth 400000 in
/-- Pairwise test of fractures 3 and 7 of scenario 2. -/
theorem s2pair_3_7 :
    polyIntersect (scenario2Fractures.getD 3 []) (scenario2Fractures.getD 7 []) = true := by
  decide
set_option maxRecDepth 400000 in
/-- Pairwise test of fractures 3 and 8 of scenario 2. -/
theorem s2pair_3_8 :
    polyIntersect (scenario2Fractures.getD 3 []) (scenario2Fractures.getD 8 []) = true := by
  decide
set_option maxRecDepth 400000 in
/-- Pairwise test of fractures 4 and 5 of scenario 2. -/
theorem s2pair_4_5 :
    polyIntersect (scenario2Fractures.getD 4 []) (scenario2Fractures.getD 5 []) = true := by
  decide
set_option maxRecDepth 400000 in
/-- Pairwise test of fractures 4 and 6 of scenario 2. -/
theorem s2pair_4_6 :
    polyIntersect (scenario2Fractures.getD 4 []) (scenario2Fractures.getD 6 []) = true := by
  decide
set_option maxRecDepth 400000 in
/-- Pairwise test of fractures 4 and 7 of scenario 2. -/
theorem s2pair_4_7 :
    polyIntersect (scenario2Fractures.getD 4 []) (scenario2Fractures.getD 7 []) = true := by
  decide
set_option maxRecDepth 400000 in
/-- Pairwise test of fractures 4 and 8 of scenario 2. -/
theorem s2pair_4_8 :
    polyIntersect (scenario2Fractures.getD 4 []) (scenario2Fractures.getD 8 []) = true := by
  decide
set_option maxRecDepth 400000 in
/-- Pairwise test of fractures 5 and 6 of scenario 2. -/
theorem s2pair_5_6 :
    polyIntersect (scenario2Fractures.getD 5 []) (scenario2Fractures.getD 6 []) = false := by
  decide
set_option maxRecDepth 400000 in
/-- Pairwise test of fractures 5 and 7 of scenario 2. -/
theorem s2pair_5_7 :
    polyIntersect (scenario2Fractures.getD 5 []) (scenario2Fractures.getD 7 []) = true := by
  decide
set_option maxRecDepth 400000 in
/-- Pairwise test of fractures 5 and 8 of scenario 2. -/
theorem s2pair_5_8 :
    polyIntersect (scenario2Fractures.getD 5 []) (scenario2Fractures.getD 8 []) = true := by
  decide
set_option maxRecDepth 400000 in
/-- Pairwise test of fractures 6 and 7 of scenario 2. -/
theorem s2pair_6_7 :
    polyIntersect (scenario2Fractures.getD 6 []) (scenario2Fractures.getD 7 []) = true := by
  decide
set_option maxRecDepth 400000 in
/-- Pairwise test of fractures 6 and 8 of scenario 2. -/
theorem s2pair_6_8 :
    polyIntersect (scenario2Fractures.getD 6 []) (scenario2Fractures.getD 8 []) = true := by
  decide
set_option maxRecDepth 400000 in
/-- Pairwise test of fractures 7 and 8 of scenario 2. -/
theorem s2pair_7_8 :
    polyIntersect (scenario2Fractures.getD 7 []) (scenario2Fractures.getD 8 []) = false := by
  decide
/-- Filtering step lemma: a list element satisfying the predicate is
kept by `List.filter`. -/
theorem filter_cons_true {α : Type} (p : α → Bool) (a : α) (l res : List α)
    (ha : p a = true) (hl : List.filter p l = res) :
    List.filter p (a :: l) = a :: res := by
  simp [List.filter_cons, ha, hl]

/-- Filtering step lemma: a list element failing the predicate is
dropped by `List.filter`. -/
theorem filter_cons_false {α : Type} (p : α → Bool) (a : α) (l res : List α)
    (ha : p a = false) (hl : List.filter p l = res) :
    List.filter p (a :: l) = res := by
  simp [List.filter_cons, ha, hl]

set_option maxRecDepth 100000 in
/-- The intersection list of scenario 2, assembled from the 36
pairwise tests: the three fracture pairs intersect, no fracture meets
a box face, opposite box faces are parallel, and the twelve pairs of
adjacent box faces meet along the box edges. -/
theorem computeIntersections_scenario2 :
    computeIntersections scenario2Fractures =
      [(0, 1), (0, 2), (1, 2), (3, 5), (3, 6), (3, 7), (3, 8), (4, 5), (4, 6), (4, 7), (4, 8), (5, 7), (5, 8), (6, 7), (6, 8)] := by
  have hip : indexPairs scenario2Fractures.length =
      [(0, 1), (0, 2), (0, 3), (0, 4), (0, 5), (0, 6), (0, 7), (0, 8), (1, 2), (1, 3), (1, 4), (1, 5), (1, 6), (1, 7), (1, 8), (2, 3), (2, 4), (2, 5), (2, 6), (2, 7), (2, 8), (3, 4), (3, 5), (3, 6), (3, 7), (3, 8), (4, 5), (4, 6), (4, 7), (4, 8), (5, 6), (5, 7), (5, 8), (6, 7), (6, 8), (7, 8)] := by decide
  unfold computeIntersections
  rw [hip]
  exact
    (filter_cons_true _ _ _ _ s2pair_0_1
      (filter_cons_true _ _ _ _ s2pair_0_2
      (filter_cons_false _ _ _ _ s2pair_0_3
      (filter_cons_false _ _ _ _ s2pair_0_4
      (filter_cons_false _ _ _ _ s2pair_0_5
      (filter_cons_false _ _ _ _ s2pair_0_6
      (filter_cons_false _ _ _ _ s2pair_0_7
      (filter_cons_false _ _ _ _ s2pair_0_8
      (filter_cons_true _ _ _ _ s2pair_1_2
      (filter_cons_false _ _ _ _ s2pair_1_3
      (filter_cons_false _ _ _ _ s2pair_1_4
      (filter_cons_false _ _ _ _ s2pair_1_5
      (filter_cons_false _ _ _ _ s2pair_1_6
      (filter_cons_false _ _ _ _ s2pair_1_7
      (filter_cons_false _ _ _ _ s2pair_1_8
      (filter_cons_false _ _ _ _ s2pair_2_3
      (filter_cons_false _ _ _ _ s2pair_2_4
      (filter_cons_false _ _ _ _ s2pair_2_5
      (filter_cons_false _ _ _ _ s2pair_2_6
      (filter_cons_false _ _ _ _ s2pair_2_7
      (filter_cons_false _ _ _ _ s2pair_2_8
      (filter_cons_false _ _ _ _ s2pair_3_4
      (filter_cons_true _ _ _ _ s2pair_3_5
      (filter_cons_true _ _ _ _ s2pair_3_6
      (filter_cons_true _ _ _ _ s2pair_3_7
      (filter_cons_true _ _ _ _ s2pair_3_8
      (filter_cons_true _ _ _ _ s2pair_4_5
      (filter_cons_true _ _ _ _ s2pair_4_6
      (filter_cons_true _ _ _ _ s2pair_4_7
      (filter_cons_true _ _ _ _ s2pair_4_8
      (filter_cons_false _ _ _ _ s2pair_5_6
      (filter_cons_true _ _ _ _ s2pair_5_7
      (filter_cons_true _ _ _ _ s2pair_5_8
      (filter_cons_true _ _ _ _ s2pair_6_7
      (filter_cons_true _ _ _ _ s2pair_6_8
      (filter_cons_false _ _ _ _ s2pair_7_8
      rfl))))))))))))))))))))))))))))))))))))

/-- C1: for the three-fracture network (f₁, f₂ and the elliptic
fracture with center (0.1, 0.3, 0.2), axes 1.5/0.5, angles π/6, -π/3,
-π/3, 12 points) in the domain [-2,3]×[-2,3]×[-3,3], after imposing
the external boundary and running `find_intersections`, the summary
reported by `intersection_info` is exactly 9 fractures intersecting in
15 intersections (the six box faces count as fracture-like planes,
hence 9 not 3). -/
theorem C1_scenario2_intersection_summary :
    scenario2Network.find_intersections.intersection_info = (9, 15) := by
  have h2 : scenario2Network.find_intersections =
      ⟨scenario2Fractures, some (computeIntersections scenario2Fractures)⟩ := rfl
  rw [h2, computeIntersections_scenario2]
  decide

set_option maxRecDepth 1000000 in
set_option maxHeartbeats 1000000 in
/-- C2: meshing the decomposed three-fracture network produces a grid
collection — and hence a `GridBucket` — with exactly 1 three-
dimensional grid, 3 two-dimensional grids (one per fracture) and 3
one-dimensional grids (one per fracture–fracture intersection); the
counts are fixed by the decomposition even though per-grid cell counts
depend on the external mesher. -/
theorem C2_grid_bucket_counts :
    gridCountsByDim (assemble_in_bucket (tetrahedral_grid [f1, f2, f3])).grids
      = (1, 3, 3) := by decide

/-- C3: for every `GridBucket`, `split_fractures` leaves `num_cells`
of every grid unchanged while `num_faces` and `num_nodes` do not
decrease. -/
theorem C3_split_preserves_counts (gb : GridBucket) (i : ℕ) (hi : i < gb.grids.length) :
    ((split_fractures gb).grids.getD i default).num_cells
        = (gb.grids.getD i default).num_cells ∧
    (gb.grids.getD i default).num_faces
        ≤ ((split_fractures gb).grids.getD i default).num_faces ∧
    (gb.grids.getD i default).num_nodes
        ≤ ((split_fractures gb).grids.getD i default).num_nodes := by
  have h : (split_fractures gb).grids.getD i default = (gb.grids.getD i default).splitGrid := by
    simp [split_fractures, List.getD_eq_getElem?_getD, List.getElem?_map,
          List.getElem?_eq_getElem hi]
  rw [h]
  refine ⟨rfl, ?_, ?_⟩ <;>
    simp [Grid.splitGrid, Grid.num_faces, Grid.num_nodes]

/-- Witness for C3 at the concrete bucket `sampleBucket`, index 0. -/
theorem C3_split_preserves_counts_witness :
    0 < sampleBucket.grids.length ∧
    (((split_fractures sampleBucket).grids.getD 0 default).num_cells
        = (sampleBucket.grids.getD 0 default).num_cells ∧
     (sampleBucket.grids.getD 0 default).num_faces
        ≤ ((split_fractures sampleBucket).grids.getD 0 default).num_faces ∧
     (sampleBucket.grids.getD 0 default).num_nodes
        ≤ ((split_fractures sampleBucket).grids.getD 0 default).num_nodes) :=
  ⟨by decide, C3_split_preserves_counts sampleBucket 0 (by decide)⟩

/-- C4: the claim says `split_fractures` strictly increases the node
and face counts of the higher-dimensional grid.  The notebook's own
recorded `report_grid` output contradicts this: the highest-
dimensional grid of the three-fracture bucket reports 7378 cells,
17118 faces and 2565 nodes both before and after
`pp.fracs.split_grid.split_fractures(gb)` — no strict increase,
although the surrounding notebook text announces the duplication of
faces and nodes.  This theorem evaluates the embedded recorded data at
that failing input. -/
theorem C4_recorded_split_report_unchanged :
    reportBeforeSplitting = (7378, 17118, 2565) ∧
    reportAfterSplitting = (7378, 17118, 2565) ∧
    ¬ reportBeforeSplitting.2.1 < reportAfterSplitting.2.1 ∧
    ¬ reportBeforeSplitting.2.2 < reportAfterSplitting.2.2 := by decide

/-- C5: `find_intersections` is idempotent — on any fracture network,
invoking it twice in a row yields exactly the same network state, and
in particular the same intersection set, as invoking it once (the
second invocation reuses the existing intersections). -/
theorem C5_find_intersections_idempotent (fn : FractureNetwork) :
    fn.find_intersections.find_intersections = fn.find_intersections := by
  cases fn with
  | mk fs is => cases is <;> rfl

set_option maxRecDepth 1000000 in
set_option maxHeartbeats 1000000 in
/-- C6: for the two fractures f₁ and f₂ of the tutorial in the domain
[-2,3]×[-2,3]×[-3,3], intersection finding yields exactly one pairwise
fracture–fracture intersection. -/
theorem C6_scenario1_single_intersection :
    (scenario1Network.find_intersections.intersections.getD []).length = 1 := by decide

/-- C7: after `_tag_faces`, every face of a 1-d grid carries exactly
one tag, which is either `intersection` (lying on a fracture-
intersection line) or `tip` (a free fracture end); the tag list has
one entry per face, so no face is left untagged. -/
theorem C7_one_d_faces_tagged (g : OneDGrid) (pts : List Vec3) (t : FaceTag)
    (h : t ∈ tag_faces g pts) :
    (t = FaceTag.intersection ∨ t = FaceTag.tip) ∧
    (tag_faces g pts).length = g.facePts.length := by
  refine ⟨?_, by simp [tag_faces]⟩
  cases t
  · exact Or.inl rfl
  · exact Or.inr rfl

/-- Witness for C7 at the concrete grid `sampleOneDGrid` with
intersection points `sampleIsectPts`. -/
theorem C7_one_d_faces_tagged_witness :
    FaceTag.intersection ∈ tag_faces sampleOneDGrid sampleIsectPts ∧
    ((FaceTag.intersection = FaceTag.intersection
        ∨ FaceTag.intersection = FaceTag.tip) ∧
     (tag_faces sampleOneDGrid sampleIsectPts).length
        = sampleOneDGrid.facePts.length) :=
  ⟨by decide,
   C7_one_d_faces_tagged sampleOneDGrid sampleIsectPts FaceTag.intersection (by decide)⟩

/-- C8: for the scalar `Ad_array` x with value 2 and Jacobian 1, the
expression x**2 + 3 has value 7 and Jacobian 4: squaring applies the
power rule (the Jacobian becomes 2·val·jac = 2·2·1) and adding the
scalar constant 3 changes the value but leaves the Jacobian
unchanged. -/
theorem C8_scalar_ad_square_plus_constant :
    ((Ad_array.mk (2 : ℤ) 1).pow 2).addConst 3 = ⟨7, 4⟩ ∧
    (((Ad_array.mk (2 : ℤ) 1).pow 2).addConst 3).jac
        = ((Ad_array.mk (2 : ℤ) 1).pow 2).jac ∧
    ((Ad_array.mk (2 : ℤ) 1).pow 2).jac = 2 * 2 * 1 := by decide

/-- C9: forward-mode propagation is compositional — applying `af.exp`
to the `Ad_array` obtained as x**2 + 3 from x = Ad_array(2, 1) yields
exactly the same result as applying `af.exp` directly to
Ad_array(7, 4), and that result has value exp 7 and Jacobian
4·exp 7 (the chain rule). -/
theorem C9_exp_chain_rule_compositional :
    af.exp (((Ad_array.mk (2 : ℝ) 1).pow 2).addConst 3) = af.exp ⟨7, 4⟩ ∧
    (af.exp (Ad_array.mk (7 : ℝ) 4)).val = Real.exp 7 ∧
    (af.exp (Ad_array.mk (7 : ℝ) 4)).jac = 4 * Real.exp 7 := by
  have h : ((Ad_array.mk (2 : ℝ) 1).pow 2).addConst 3 = Ad_array.mk (7 : ℝ) 4 := by
    simp [Ad_array.pow, Ad_array.addConst]; norm_num
  refine ⟨by rw [h], by simp [af.exp], by simp [af.exp]; ring⟩

/-- C10: for the vector `Ad_array` x with value [1,2,3] and identity
Jacobian and the matrix A = [[0,2,3],[4,0,6],[7,8,0]], the expression
A·x + x**2 (squaring componentwise) has exact integer value
[14, 26, 32] and Jacobian A + 2·diag(x) = [[2,2,3],[4,4,6],[7,8,6]]. -/
theorem C10_vector_ad_matrix_plus_square :
    Ad_vec.add (Ad_vec.matApply Amat xVec) (Ad_vec.sq xVec) =
      ⟨[14, 26, 32], [[2, 2, 3], [4, 4, 6], [7, 8, 6]]⟩ := by decide
